import Mathlib

/-!
Shallow embedding of the ernestio/nat-all-aws-connector Go sources
(src/main.go and src/event.go) and verification of the frozen claims.

Modelling conventions:
- The EC2 service is an environment `Env` of response functions: each AWS
  call the source makes is a field of `Env`, and every invocation is
  recorded in a trace of `Call` values (the order of remote calls).
- Go's `(value, error)` returns become `Except Err value`; a nil resource
  pointer paired with a nil error (a "not found" lookup result) becomes
  `Except Err (Option value)` with `.ok none`.
- The NATS bus is modelled by the list of published messages (`Pub`).
- `json.Marshal` of the `Event` record is modelled as total: the record
  holds only strings and lists of strings, for which Go's encoder cannot
  fail, so `Event.Error` / `Event.Complete` always publish.
- The unbounded delete-wait loop is given explicit fuel; a describe
  response may depend on the poll iteration index.
- Go's nil-pointer dereference in `isNatGatewayDeleted` (the gateway
  pointer is nil whenever `natGatewayByID` returned an error) is modelled
  by the `none` outcome (`DeleteOutcome.crashed` at the loop level).
-/

/-- A provider / library error value (Go `error`). -/
structure Err where
  msg : String
deriving DecidableEq, Repr

/-- Result of `ec2.AllocateAddress`. -/
structure Address where
  allocationId : String
  publicIp : String
deriving DecidableEq, Repr

/-- An `ec2.InternetGateway` record (the field the source reads). -/
structure InternetGateway where
  internetGatewayId : String
deriving DecidableEq, Repr

/-- An `ec2.Route` record (the fields the source reads). -/
structure Route where
  destinationCidrBlock : String
  natGatewayId : String
deriving DecidableEq, Repr

/-- An `ec2.RouteTable` record (the fields the source reads). -/
structure RouteTable where
  routeTableId : String
  routes : List Route
deriving DecidableEq, Repr

/-- An `ec2.NatGateway` record (the fields the source reads). -/
structure NatGateway where
  natGatewayId : String
  state : String
deriving DecidableEq, Repr

/-- The constant `ec2.NatGatewayStateDeleted`. -/
def NatGatewayStateDeleted : String := "deleted"

/-- One remote EC2 call, as recorded in the workflow trace. -/
inductive Call where
  | allocateAddress
  | describeInternetGateways (vpc : String)
  | createInternetGateway
  | attachInternetGateway (igw vpc : String)
  | createNatGateway (allocationId subnet : String)
  | waitNatGatewayAvailable (id : String)
  | describeRouteTables (subnet : String)
  | createRouteTable (vpc : String)
  | associateRouteTable (rtb subnet : String)
  | createRoute (rtb cidr gw : String)
  | deleteNatGateway (id : String)
  | describeNatGateways (id : String)
deriving DecidableEq, Repr

/-- The EC2 service as a deterministic oracle: one response function per
API call used by the source. `describeNatGateways` also receives the
poll-iteration index, since the delete-wait loop calls it repeatedly and
the cloud state evolves between polls. -/
structure Env where
  allocateAddress : Except Err Address
  describeInternetGateways : String → Except Err (List InternetGateway)
  createInternetGateway : Except Err InternetGateway
  attachInternetGateway : String → String → Except Err Unit
  describeRouteTables : String → Except Err (List RouteTable)
  createRouteTable : String → Except Err RouteTable
  associateRouteTable : String → String → Except Err Unit
  createRoute : String → String → String → Except Err Unit
  createNatGateway : String → String → Except Err NatGateway
  waitNatGatewayAvailable : String → Except Err Unit
  deleteNatGateway : String → Except Err Unit
  describeNatGateways : Nat → String → Except Err (List NatGateway)

/-- The `Event` record of src/event.go (wire envelope / desired state). -/
structure Event where
  UUID : String := ""
  BatchID : String := ""
  ProviderType : String := ""
  VPCID : String := ""
  DatacenterRegion : String := ""
  DatacenterAccessKey : String := ""
  DatacenterAccessToken : String := ""
  NetworkAWSID : String := ""
  PublicNetwork : String := ""
  PublicNetworkAWSID : String := ""
  RoutedNetworks : List String := []
  RoutedNetworkAWSIDs : List String := []
  NatGatewayAWSID : String := ""
  NatGatewayAllocationID : String := ""
  NatGatewayAllocationIP : String := ""
  InternetGatewayID : String := ""
  ErrorMessage : String := ""
  action : String := ""
deriving DecidableEq, Repr

/-- Model of `ErrDatacenterIDInvalid` of src/event.go. -/
def ErrDatacenterIDInvalid : Err := ⟨"Datacenter VPC ID invalid"⟩

/-- Model of `ErrDatacenterRegionInvalid` of src/event.go. -/
def ErrDatacenterRegionInvalid : Err := ⟨"Datacenter Region invalid"⟩

/-- Model of `ErrDatacenterCredentialsInvalid` of src/event.go. -/
def ErrDatacenterCredentialsInvalid : Err := ⟨"Datacenter credentials invalid"⟩

/-- Model of `ErrNetworkIDInvalid` of src/event.go. -/
def ErrNetworkIDInvalid : Err := ⟨"Network id invalid"⟩

/-- Model of `ErrRoutedNetworksEmpty` of src/event.go. -/
def ErrRoutedNetworksEmpty : Err := ⟨"Routed networks are empty"⟩

/-- Model of `ErrNatGatewayIDInvalid` of src/event.go. -/
def ErrNatGatewayIDInvalid : Err := ⟨"Nat Gateway aws id invalid"⟩

/-- Model of `Event.Validate` of src/event.go: the field checks in source order.
Returns the error, or `none` when the event is valid for the subject. -/
def Event.Validate (ev : Event) (subject : String) : Option Err :=
  if ev.VPCID = "" then some ErrDatacenterIDInvalid
  else if ev.DatacenterRegion = "" then some ErrDatacenterRegionInvalid
  else if ev.DatacenterAccessKey = "" ∨ ev.DatacenterAccessToken = "" then
    some ErrDatacenterCredentialsInvalid
  else if subject = "nat.delete.aws" then
    if ev.NatGatewayAWSID = "" then some ErrNatGatewayIDInvalid else none
  else if ev.PublicNetworkAWSID = "" then some ErrNetworkIDInvalid
  else if ev.RoutedNetworkAWSIDs.length < 1 then some ErrRoutedNetworksEmpty
  else none

/-- A message published on the NATS bus. -/
inductive Pub where
  | raw (subject : String) (data : String)
  | event (subject : String) (ev : Event)
deriving DecidableEq, Repr

/-- Model of `Event.Error` of src/event.go: records the error message on the
envelope and publishes it on `nat.<action>.aws.error` (marshalling the
all-string record cannot fail). Returns the updated event and the
published message. -/
def Event.Error (ev : Event) (e : Err) : Event × Pub :=
  let ev' := { ev with ErrorMessage := e.msg }
  (ev', Pub.event ("nat." ++ ev.action ++ ".aws.error") ev')

/-- Model of `Event.Complete` of src/event.go: publishes the envelope on
`nat.<action>.aws.done` (marshalling the all-string record cannot fail,
so the error branch inside `Complete` is unreachable). -/
def Event.Complete (ev : Event) : Pub :=
  Pub.event ("nat." ++ ev.action ++ ".aws.done") ev

/-- Splitting a character list on `'.'`, accumulating the current
segment (an executable rendering of Go's `strings.Split(s, ".")`). -/
def splitDotAux : List Char → List Char → List String
  | [], acc => [String.mk acc.reverse]
  | c :: cs, acc =>
    if c = '.' then String.mk acc.reverse :: splitDotAux cs []
    else splitDotAux cs (c :: acc)

/-- The action component `strings.Split(subject, ".")[1]` used by
`Event.Process` and by the dispatch switch in `eventHandler`. (Go panics
on a subject with no `.`; the handler is only ever subscribed to the
three-part `nat.<action>.aws` subjects, where the index is in range.) -/
def actionOf (subject : String) : String :=
  ((splitDotAux subject.toList []).drop 1).headD ""

/-- Model of `internetGatewayByVPCID` of src/main.go: describe internet gateways
filtered by VPC attachment; an empty result list is returned as
`.ok none` (Go `nil, nil`), otherwise the first gateway is returned. -/
def internetGatewayByVPCID (env : Env) (vpc : String) :
    Except Err (Option InternetGateway) × List Call :=
  match env.describeInternetGateways vpc with
  | .error e => (.error e, [Call.describeInternetGateways vpc])
  | .ok [] => (.ok none, [Call.describeInternetGateways vpc])
  | .ok (g :: _) => (.ok (some g), [Call.describeInternetGateways vpc])

/-- Model of `routingTableBySubnetID` of src/main.go: describe route tables
filtered by subnet association; an empty result list is returned as
`.ok none` (Go `nil, nil`), otherwise the first table is returned. -/
def routingTableBySubnetID (env : Env) (subnet : String) :
    Except Err (Option RouteTable) × List Call :=
  match env.describeRouteTables subnet with
  | .error e => (.error e, [Call.describeRouteTables subnet])
  | .ok [] => (.ok none, [Call.describeRouteTables subnet])
  | .ok (rt :: _) => (.ok (some rt), [Call.describeRouteTables subnet])

/-- Model of `createInternetGateway` of src/main.go: reuse the gateway already
attached to the VPC when the lookup finds one; otherwise create a new
gateway and attach it. Returns the gateway ID. -/
def createInternetGateway (env : Env) (vpc : String) :
    Except Err String × List Call :=
  match internetGatewayByVPCID env vpc with
  | (.error e, t) => (.error e, t)
  | (.ok (some ig), t) => (.ok ig.internetGatewayId, t)
  | (.ok none, t) =>
    match env.createInternetGateway with
    | .error e => (.error e, t ++ [Call.createInternetGateway])
    | .ok ig =>
      match env.attachInternetGateway ig.internetGatewayId vpc with
      | .error e =>
        (.error e, t ++ [Call.createInternetGateway,
          Call.attachInternetGateway ig.internetGatewayId vpc])
      | .ok _ =>
        (.ok ig.internetGatewayId, t ++ [Call.createInternetGateway,
          Call.attachInternetGateway ig.internetGatewayId vpc])

/-- Model of `createRouteTable` of src/main.go: reuse the route table already
associated with the subnet when the lookup finds one; otherwise create a
table in the VPC and associate it with the subnet. -/
def createRouteTable (env : Env) (vpc subnet : String) :
    Except Err RouteTable × List Call :=
  match routingTableBySubnetID env subnet with
  | (.error e, t) => (.error e, t)
  | (.ok (some rt), t) => (.ok rt, t)
  | (.ok none, t) =>
    match env.createRouteTable vpc with
    | .error e => (.error e, t ++ [Call.createRouteTable vpc])
    | .ok rt =>
      match env.associateRouteTable rt.routeTableId subnet with
      | .error e =>
        (.error e, t ++ [Call.createRouteTable vpc,
          Call.associateRouteTable rt.routeTableId subnet])
      | .ok _ =>
        (.ok rt, t ++ [Call.createRouteTable vpc,
          Call.associateRouteTable rt.routeTableId subnet])

/-- Model of `createNatGatewayRoutes` of src/main.go: install the default route
`0.0.0.0/0 → gwID` in the given route table. -/
def createNatGatewayRoutes (env : Env) (rt : RouteTable) (gwID : String) :
    Except Err Unit × List Call :=
  match env.createRoute rt.routeTableId "0.0.0.0/0" gwID with
  | .error e => (.error e, [Call.createRoute rt.routeTableId "0.0.0.0/0" gwID])
  | .ok _ => (.ok (), [Call.createRoute rt.routeTableId "0.0.0.0/0" gwID])

/-- Model of `routeTableIsConfigured` of src/main.go: scan the table's route list
for an exact `0.0.0.0/0` destination and NAT-gateway target match. -/
def routeTableIsConfigured (rt : RouteTable) (gwID : String) : Bool :=
  rt.routes.any fun route =>
    route.destinationCidrBlock == "0.0.0.0/0" && route.natGatewayId == gwID

/-- The per-subnet loop body of `CreateNat` (src/main.go lines 224-234):
resolve or create the subnet's route table, then install the default
route to the NAT gateway. -/
def createStep (env : Env) (vpc gwID subnet : String) :
    Except Err Unit × List Call :=
  match createRouteTable env vpc subnet with
  | (.error e, t) => (.error e, t)
  | (.ok rt, t) =>
    match createNatGatewayRoutes env rt gwID with
    | (r, t2) => (r, t ++ t2)

/-- The `for _, networkID := range ev.RoutedNetworkAWSIDs` loop of
`CreateNat`: each subnet is processed in order; the first failure
returns immediately, skipping the remaining subnets. -/
def createLoop (env : Env) (vpc gwID : String) :
    List String → Except Err Unit × List Call
  | [] => (.ok (), [])
  | subnet :: rest =>
    match createStep env vpc gwID subnet with
    | (.error e, t) => (.error e, t)
    | (.ok _, t) =>
      match createLoop env vpc gwID rest with
      | (r, t2) => (r, t ++ t2)

/-- Model of `CreateNat` of src/main.go: allocate an elastic IP, resolve or create
the internet gateway, create the NAT gateway on the public subnet, wait
until it is available, then run the per-subnet route loop. The event
record is mutated in place as IDs are discovered, so the updated record
is returned on every path. -/
def CreateNat (env : Env) (ev : Event) :
    Except Err Unit × Event × List Call :=
  match env.allocateAddress with
  | .error e => (.error e, ev, [Call.allocateAddress])
  | .ok addr =>
    let ev1 := { ev with NatGatewayAllocationID := addr.allocationId,
                         NatGatewayAllocationIP := addr.publicIp }
    match createInternetGateway env ev1.VPCID with
    | (.error e, tg) => (.error e, ev1, Call.allocateAddress :: tg)
    | (.ok igwId, tg) =>
      let ev2 := { ev1 with InternetGatewayID := igwId }
      match env.createNatGateway ev2.NatGatewayAllocationID ev2.PublicNetworkAWSID with
      | .error e =>
        (.error e, ev2, Call.allocateAddress :: tg ++
          [Call.createNatGateway ev2.NatGatewayAllocationID ev2.PublicNetworkAWSID])
      | .ok gw =>
        let ev3 := { ev2 with NatGatewayAWSID := gw.natGatewayId }
        match env.waitNatGatewayAvailable gw.natGatewayId with
        | .error e =>
          (.error e, ev3, Call.allocateAddress :: tg ++
            [Call.createNatGateway ev3.NatGatewayAllocationID ev3.PublicNetworkAWSID,
             Call.waitNatGatewayAvailable gw.natGatewayId])
        | .ok _ =>
          match createLoop env ev3.VPCID gw.natGatewayId ev3.RoutedNetworkAWSIDs with
          | (r, tl) =>
            (r, ev3, Call.allocateAddress :: tg ++
              [Call.createNatGateway ev3.NatGatewayAllocationID ev3.PublicNetworkAWSID,
               Call.waitNatGatewayAvailable gw.natGatewayId] ++ tl)

/-- The `for` loop of `UpdateNat`: as `createLoop`, but a subnet whose
resolved route table already carries the `0.0.0.0/0 → gwID` route is
skipped (`continue`) without a route-creation call. -/
def updateLoop (env : Env) (vpc gwID : String) :
    List String → Except Err Unit × List Call
  | [] => (.ok (), [])
  | subnet :: rest =>
    match createRouteTable env vpc subnet with
    | (.error e, t) => (.error e, t)
    | (.ok rt, t) =>
      if routeTableIsConfigured rt gwID then
        match updateLoop env vpc gwID rest with
        | (r, t2) => (r, t ++ t2)
      else
        match createNatGatewayRoutes env rt gwID with
        | (.error e, t2) => (.error e, t ++ t2)
        | (.ok _, t2) =>
          match updateLoop env vpc gwID rest with
          | (r, t3) => (r, t ++ t2 ++ t3)

/-- Model of `UpdateNat` of src/main.go: run the idempotent per-subnet route loop
against the existing NAT gateway ID. -/
def UpdateNat (env : Env) (ev : Event) :
    Except Err Unit × Event × List Call :=
  match updateLoop env ev.VPCID ev.NatGatewayAWSID ev.RoutedNetworkAWSIDs with
  | (r, t) => (r, ev, t)

/-- Model of `natGatewayByID` of src/main.go: describe the NAT gateway by ID; a
response that does not contain exactly one gateway is returned as the
error "Could not find nat gateway". `k` is the poll-iteration index. -/
def natGatewayByID (env : Env) (k : Nat) (id : String) :
    Except Err NatGateway × List Call :=
  match env.describeNatGateways k id with
  | .error e => (.error e, [Call.describeNatGateways id])
  | .ok [gw] => (.ok gw, [Call.describeNatGateways id])
  | .ok _ => (.error ⟨"Could not find nat gateway"⟩, [Call.describeNatGateways id])

/-- Model of `isNatGatewayDeleted` of src/main.go: the error from `natGatewayByID`
is discarded (`gw, _ :=`) and `*gw.State` is dereferenced unconditionally.
When `natGatewayByID` returns an error the gateway pointer is Go `nil`,
so the dereference panics: that outcome is modelled by `none`. -/
def isNatGatewayDeleted (env : Env) (k : Nat) (id : String) :
    Option Bool × List Call :=
  match natGatewayByID env k id with
  | (.error _, t) => (none, t)
  | (.ok gw, t) => (some (gw.state == NatGatewayStateDeleted), t)

/-- Outcome of the delete workflow. -/
inductive DeleteOutcome where
  | done
  | failed (e : Err)
  | crashed
  | polling
deriving DecidableEq, Repr

/-- The `for isNatGatewayDeleted(svc, id) == false` wait loop of
`DeleteNat`, with explicit fuel: `.done` when a poll reports the deleted
state, `.crashed` when a poll hits the nil-pointer dereference, and
`.polling` when the fuel runs out while the loop is still spinning (the
source loop is unbounded). The 3-second sleep between polls has no
observable effect on the call trace and is not modelled. -/
def deleteWaitLoop (env : Env) (id : String) :
    Nat → Nat → DeleteOutcome × List Call
  | 0, _ => (.polling, [])
  | fuel + 1, k =>
    match isNatGatewayDeleted env k id with
    | (none, t) => (.crashed, t)
    | (some true, t) => (.done, t)
    | (some false, t) =>
      match deleteWaitLoop env id fuel (k + 1) with
      | (o, t2) => (o, t ++ t2)

/-- Model of `DeleteNat` of src/main.go: issue the NAT-gateway delete call for the
ID carried by the event, then poll until the describe call reports the
deleted state. Only the region, the credentials and `NatGatewayAWSID`
are read from the event. -/
def DeleteNat (env : Env) (fuel : Nat) (ev : Event) :
    DeleteOutcome × List Call :=
  match env.deleteNatGateway ev.NatGatewayAWSID with
  | .error e => (.failed e, [Call.deleteNatGateway ev.NatGatewayAWSID])
  | .ok _ =>
    match deleteWaitLoop env ev.NatGatewayAWSID fuel 0 with
    | (o, t) => (o, Call.deleteNatGateway ev.NatGatewayAWSID :: t)

/-- Model of `eventHandler` of src/main.go. `decoded` is the outcome of
`json.Unmarshal` inside `Event.Process`: `none` when the payload does not
decode (the raw payload is then republished on `subject + ".error"` and
the handler returns), `some ev` otherwise. After validation the handler
dispatches on the action component of the subject; the delete case is
commented out in the source (`//err = deleteNat(&n)`), so it performs no
cloud call. Returns the published messages and the cloud-call trace. -/
def eventHandler (env : Env) (subject raw : String) (decoded : Option Event) :
    List Pub × List Call :=
  match decoded with
  | none => ([Pub.raw (subject ++ ".error") raw], [])
  | some ev0 =>
    let ev := { ev0 with action := actionOf subject }
    match ev.Validate subject with
    | some e => ([(ev.Error e).2], [])
    | none =>
      if actionOf subject = "create" then
        match CreateNat env ev with
        | (.error e, ev', t) => ([(ev'.Error e).2], t)
        | (.ok _, ev', t) => ([ev'.Complete], t)
      else if actionOf subject = "update" then
        match UpdateNat env ev with
        | (.error e, ev', t) => ([(ev'.Error e).2], t)
        | (.ok _, ev', t) => ([ev'.Complete], t)
      else
        ([ev.Complete], [])

/-- The event record as mutated by a `CreateNat` run that got past the
NAT-gateway wait: the allocation IDs, the internet-gateway ID and the
NAT-gateway ID have been filled in (src/main.go lines 193-213). -/
def createdEvent (ev : Event) (addr : Address) (igwId : String) (gw : NatGateway) : Event :=
  { ev with NatGatewayAllocationID := addr.allocationId,
            NatGatewayAllocationIP := addr.publicIp,
            InternetGatewayID := igwId,
            NatGatewayAWSID := gw.natGatewayId }

/-- A baseline test cloud: every mutating call succeeds and every lookup
finds nothing. -/
def env0 : Env where
  allocateAddress := .ok ⟨"alloc-1", "52.0.0.1"⟩
  describeInternetGateways := fun _ => .ok []
  createInternetGateway := .ok ⟨"igw-new"⟩
  attachInternetGateway := fun _ _ => .ok ()
  describeRouteTables := fun _ => .ok []
  createRouteTable := fun _ => .ok ⟨"rtb-new", []⟩
  associateRouteTable := fun _ _ => .ok ()
  createRoute := fun _ _ _ => .ok ()
  createNatGateway := fun _ _ => .ok ⟨"nat-1", "pending"⟩
  waitNatGatewayAvailable := fun _ => .ok ()
  deleteNatGateway := fun _ => .ok ()
  describeNatGateways := fun _ _ => .ok []

/-- A cloud whose NAT-gateway describe call always fails. -/
def envDescribeErr : Env :=
  { env0 with describeNatGateways := fun _ _ => .error ⟨"describe failed"⟩ }

/-- A cloud for the create-ordering scenario: each subnet already has a
route table named after it, and installing the default route fails
exactly for subnet-b's table. -/
def envC2 : Env :=
  { env0 with
    describeRouteTables := fun s => .ok [⟨"rtb-" ++ s, []⟩],
    createRoute := fun rtb _ _ =>
      if rtb = "rtb-subnet-b" then .error ⟨"route failed"⟩ else .ok () }

/-- A cloud whose route tables all already carry the
`0.0.0.0/0 → nat-1` default route. -/
def envC4 : Env :=
  { env0 with
    describeRouteTables := fun _ => .ok [⟨"rtb-1", [⟨"0.0.0.0/0", "nat-1"⟩]⟩] }

/-- A cloud whose VPC already has an attached internet gateway. -/
def envReuse : Env :=
  { env0 with describeInternetGateways := fun _ => .ok [⟨"igw-1"⟩] }

/-- A valid delete request. -/
def evDel : Event :=
  { VPCID := "vpc-1", DatacenterRegion := "us-east-1",
    DatacenterAccessKey := "k", DatacenterAccessToken := "t",
    NatGatewayAWSID := "nat-1" }

/-- A valid create request with three routed subnets. -/
def evC2 : Event :=
  { VPCID := "vpc-1", DatacenterRegion := "us-east-1",
    DatacenterAccessKey := "k", DatacenterAccessToken := "t",
    PublicNetworkAWSID := "subnet-pub",
    RoutedNetworkAWSIDs := ["subnet-a", "subnet-b", "subnet-c"] }

/-- A valid update request with two routed subnets against gateway
`nat-1`. -/
def evC4 : Event :=
  { VPCID := "vpc-1", DatacenterRegion := "us-east-1",
    DatacenterAccessKey := "k", DatacenterAccessToken := "t",
    PublicNetworkAWSID := "subnet-pub",
    RoutedNetworkAWSIDs := ["subnet-a", "subnet-b"],
    NatGatewayAWSID := "nat-1" }

lemma validate_ignores_action (ev : Event) (subject a : String) :
    Event.Validate { ev with action := a } subject = Event.Validate ev subject := rfl

/-- C7: for a create or update request with an empty `vpc_id`,
`datacenter_region`, credential field, `public_network_aws_id`, or empty
`routed_networks_aws_ids`, validation returns the corresponding distinct
error kind (each field's kind is returned when the checks preceding it in
source order pass), and the handler then publishes the single error reply
with an empty cloud-call trace, i.e. before any remote call. -/
theorem c7_create_update_validation (ev : Event) (subject : String)
    (hs : subject = "nat.create.aws" ∨ subject = "nat.update.aws") :
    (ev.VPCID = "" → ev.Validate subject = some ErrDatacenterIDInvalid) ∧
    (ev.VPCID ≠ "" → ev.DatacenterRegion = "" →
      ev.Validate subject = some ErrDatacenterRegionInvalid) ∧
    (ev.VPCID ≠ "" → ev.DatacenterRegion ≠ "" →
      (ev.DatacenterAccessKey = "" ∨ ev.DatacenterAccessToken = "") →
      ev.Validate subject = some ErrDatacenterCredentialsInvalid) ∧
    (ev.VPCID ≠ "" → ev.DatacenterRegion ≠ "" → ev.DatacenterAccessKey ≠ "" →
      ev.DatacenterAccessToken ≠ "" → ev.PublicNetworkAWSID = "" →
      ev.Validate subject = some ErrNetworkIDInvalid) ∧
    (ev.VPCID ≠ "" → ev.DatacenterRegion ≠ "" → ev.DatacenterAccessKey ≠ "" →
      ev.DatacenterAccessToken ≠ "" → ev.PublicNetworkAWSID ≠ "" →
      ev.RoutedNetworkAWSIDs = [] → ev.Validate subject = some ErrRoutedNetworksEmpty) ∧
    (∀ env raw e, ev.Validate subject = some e →
      eventHandler env subject raw (some ev) =
        ([Pub.event ("nat." ++ actionOf subject ++ ".aws.error")
            { ev with action := actionOf subject, ErrorMessage := e.msg }], [])) := by
  have hne : ¬ subject = "nat.delete.aws" := by
    rcases hs with h | h <;> subst h <;> decide
  refine ⟨?_, ?_, ?_, ?_, ?_, ?_⟩
  · intro h1; simp [Event.Validate, h1]
  · intro h1 h2; simp [Event.Validate, h1, h2]
  · intro h1 h2 h3
    rcases h3 with h3 | h3 <;> simp [Event.Validate, h1, h2, h3]
  · intro h1 h2 h3 h4 h5
    simp [Event.Validate, h1, h2, h3, h4, h5, hne]
  · intro h1 h2 h3 h4 h5 h6
    simp [Event.Validate, h1, h2, h3, h4, h5, h6, hne]
  · intro env raw e hv
    have hv' : Event.Validate { ev with action := actionOf subject } subject = some e := hv
    simp only [eventHandler, hv']
    simp [Event.Error]

/-- C7 witness: the all-empty create request fails validation with the
VPC-ID kind and the handler replies once on the error subject without a
single cloud call. -/
theorem c7_witness :
    Event.Validate {} "nat.create.aws" = some ErrDatacenterIDInvalid ∧
    eventHandler env0 "nat.create.aws" "payload" (some {}) =
      ([Pub.event "nat.create.aws.error"
          { action := "create", ErrorMessage := "Datacenter VPC ID invalid" }], []) := by
  have h := c7_create_update_validation {} "nat.create.aws" (Or.inl rfl)
  have h1 := h.1 rfl
  exact ⟨h1, h.2.2.2.2.2 env0 "payload" ErrDatacenterIDInvalid h1⟩

/-- C8 (amended): a delete request that passes the VPC-ID, region and
credential checks and carries an empty `nat_gateway_aws_id` fails with
the NAT-gateway-ID error kind; with a non-empty `nat_gateway_aws_id` it
validates even when `public_network_aws_id` is empty and
`routed_networks_aws_ids` is empty, since delete validation never
inspects those fields. -/
theorem c8_delete_validation (ev : Event)
    (h1 : ev.VPCID ≠ "") (h2 : ev.DatacenterRegion ≠ "")
    (h3 : ev.DatacenterAccessKey ≠ "") (h4 : ev.DatacenterAccessToken ≠ "") :
    (ev.NatGatewayAWSID = "" →
      ev.Validate "nat.delete.aws" = some ErrNatGatewayIDInvalid) ∧
    (ev.NatGatewayAWSID ≠ "" → ev.Validate "nat.delete.aws" = none) := by
  constructor <;> intro h5 <;> simp [Event.Validate, h1, h2, h3, h4, h5]

/-- C8 counterexample: the claim quantifies over every delete request
with an empty `nat_gateway_aws_id`, but a delete request whose `vpc_id`
is also empty fails with the VPC-ID kind, not the NAT-gateway-ID kind:
the field checks of `Event.Validate` run in a fixed order. -/
theorem c8_counterexample :
    Event.Validate {} "nat.delete.aws" = some ErrDatacenterIDInvalid ∧
    some ErrDatacenterIDInvalid ≠ some ErrNatGatewayIDInvalid := by
  constructor
  · rfl
  · decide

/-- C8 witness: a delete request with empty `public_network_aws_id` and
empty `routed_networks_aws_ids` validates, and the same request with the
NAT-gateway ID blanked fails with the NAT-gateway-ID kind. -/
theorem c8_witness :
    Event.Validate evDel "nat.delete.aws" = none ∧
    Event.Validate { evDel with NatGatewayAWSID := "" } "nat.delete.aws" =
      some ErrNatGatewayIDInvalid := by
  refine ⟨(c8_delete_validation evDel ?_ ?_ ?_ ?_).2 ?_,
    (c8_delete_validation { evDel with NatGatewayAWSID := "" } ?_ ?_ ?_ ?_).1 rfl⟩ <;> decide

/-- C10: delete validation also requires `vpc_id`, `datacenter_region`
and both credential fields, in that fixed order before the NAT-gateway-ID
check, even though the delete workflow itself never reads the VPC ID:
`DeleteNat` is invariant under any change of the event's `VPCID`. -/
theorem c10_delete_prior_checks (ev : Event) :
    (ev.VPCID = "" → ev.Validate "nat.delete.aws" = some ErrDatacenterIDInvalid) ∧
    (ev.VPCID ≠ "" → ev.DatacenterRegion = "" →
      ev.Validate "nat.delete.aws" = some ErrDatacenterRegionInvalid) ∧
    (ev.VPCID ≠ "" → ev.DatacenterRegion ≠ "" →
      (ev.DatacenterAccessKey = "" ∨ ev.DatacenterAccessToken = "") →
      ev.Validate "nat.delete.aws" = some ErrDatacenterCredentialsInvalid) ∧
    (∀ env fuel v, DeleteNat env fuel { ev with VPCID := v } = DeleteNat env fuel ev) := by
  refine ⟨?_, ?_, ?_, ?_⟩
  · intro h1; simp [Event.Validate, h1]
  · intro h1 h2; simp [Event.Validate, h1, h2]
  · intro h1 h2 h3
    rcases h3 with h3 | h3 <;> simp [Event.Validate, h1, h2, h3]
  · intro env fuel v; rfl

/-- C10 witness: a delete request with an empty `vpc_id` fails with the
VPC-ID kind, and changing the VPC ID of a valid delete request does not
change the delete workflow's behaviour. -/
theorem c10_witness :
    Event.Validate { NatGatewayAWSID := "nat-1" } "nat.delete.aws" =
      some ErrDatacenterIDInvalid ∧
    DeleteNat env0 3 { evDel with VPCID := "vpc-other" } = DeleteNat env0 3 evDel := by
  exact ⟨(c10_delete_prior_checks { NatGatewayAWSID := "nat-1" }).1 rfl,
    (c10_delete_prior_checks evDel).2.2.2 env0 3 "vpc-other"⟩

/-- C9: every execution of the handler publishes exactly one reply
message; in particular a decode failure republishes the raw payload once
on `<subject>.error`. No path publishes two replies or none. -/
theorem c9_exactly_one_reply (env : Env) (subject raw : String)
    (decoded : Option Event) :
    (eventHandler env subject raw decoded).1.length = 1 ∧
    (decoded = none →
      (eventHandler env subject raw decoded).1 = [Pub.raw (subject ++ ".error") raw]) := by
  cases decoded with
  | none => exact ⟨rfl, fun _ => rfl⟩
  | some ev0 =>
    refine ⟨?_, fun h => by cases h⟩
    simp only [eventHandler]
    cases hv : Event.Validate { ev0 with action := actionOf subject } subject with
    | some e => rfl
    | none =>
      simp only []
      split
      · split <;> rfl
      · split
        · split <;> rfl
        · rfl

/-- C9 witness: a malformed payload on `nat.create.aws` produces exactly
the one raw republication on `nat.create.aws.error`. -/
theorem c9_witness :
    (eventHandler env0 "nat.create.aws" "not-json" none).1 =
      [Pub.raw ("nat.create.aws" ++ ".error") "not-json"] ∧
    (eventHandler env0 "nat.create.aws" "not-json" none).1.length = 1 := by
  have h := c9_exactly_one_reply env0 "nat.create.aws" "not-json" none
  exact ⟨h.2 rfl, h.1⟩

/-- C5: when the VPC-attachment-filtered lookup finds an internet
gateway, `createInternetGateway` returns that gateway's ID with the
describe call as its only remote call; a create-internet-gateway call is
only ever issued when the lookup returned the empty list; and the reused
ID is recorded in the outcome event by `CreateNat`. -/
theorem c5_internet_gateway_reuse (env : Env) (vpc : String) :
    (∀ g gs, env.describeInternetGateways vpc = .ok (g :: gs) →
      createInternetGateway env vpc =
        (.ok g.internetGatewayId, [Call.describeInternetGateways vpc])) ∧
    (Call.createInternetGateway ∈ (createInternetGateway env vpc).2 →
      env.describeInternetGateways vpc = .ok []) ∧
    (∀ a g gs ev, env.allocateAddress = .ok a →
      env.describeInternetGateways vpc = .ok (g :: gs) → ev.VPCID = vpc →
      ((CreateNat env ev).2.1).InternetGatewayID = g.internetGatewayId) := by
  have hfound : ∀ g gs, env.describeInternetGateways vpc = .ok (g :: gs) →
      createInternetGateway env vpc =
        (.ok g.internetGatewayId, [Call.describeInternetGateways vpc]) := by
    intro g gs hd
    simp [createInternetGateway, internetGatewayByVPCID, hd]
  refine ⟨hfound, ?_, ?_⟩
  · intro hmem
    cases hd : env.describeInternetGateways vpc with
    | error e =>
      simp [createInternetGateway, internetGatewayByVPCID, hd] at hmem
    | ok gws =>
      cases gws with
      | nil => rfl
      | cons g gs =>
        simp [createInternetGateway, internetGatewayByVPCID, hd] at hmem
  · intro a g gs ev ha hd hv
    subst hv
    have hcig := hfound g gs hd
    simp only [CreateNat, ha]
    simp only [hcig]
    split
    · rfl
    · split
      · rfl
      · rfl

/-- C5 witness: against a VPC that already has an attached internet
gateway (`igw-1`), `createInternetGateway` reuses it with only the
describe call, and `CreateNat` records `igw-1` in the outcome event. -/
theorem c5_witness :
    createInternetGateway envReuse "vpc-1" =
      (.ok "igw-1", [Call.describeInternetGateways "vpc-1"]) ∧
    ((CreateNat envReuse evC2).2.1).InternetGatewayID = "igw-1" := by
  have h := c5_internet_gateway_reuse envReuse "vpc-1"
  exact ⟨h.1 ⟨"igw-1"⟩ [] rfl,
    h.2.2 ⟨"alloc-1", "52.0.0.1"⟩ ⟨"igw-1"⟩ [] evC2 rfl rfl rfl⟩

/-- C6 counterexample: absence is not uniformly a non-error result. With
a describe response that finds no NAT gateway, `natGatewayByID` returns
the error "Could not find nat gateway" instead of an empty result, so the
claim that every lookup returns absence as a normal non-error empty
result is false. -/
theorem c6_counterexample :
    natGatewayByID env0 0 "nat-1" =
      (.error ⟨"Could not find nat gateway"⟩, [Call.describeNatGateways "nat-1"]) ∧
    ∀ gw t, natGatewayByID env0 0 "nat-1" ≠ (Except.ok gw, t) := by
  refine ⟨rfl, ?_⟩
  intro gw t h
  cases h

/-- C6 (amended): the internet-gateway and route-table lookups do return
absence as a normal non-error empty result, but the NAT-gateway-by-ID
lookup returns the error "Could not find nat gateway" whenever the
describe response does not contain exactly one gateway. -/
theorem c6_lookup_absence (env : Env) (vpc subnet id : String) (k : Nat) :
    (env.describeInternetGateways vpc = .ok [] →
      internetGatewayByVPCID env vpc =
        (.ok none, [Call.describeInternetGateways vpc])) ∧
    (env.describeRouteTables subnet = .ok [] →
      routingTableBySubnetID env subnet =
        (.ok none, [Call.describeRouteTables subnet])) ∧
    (∀ gws, env.describeNatGateways k id = .ok gws → gws.length ≠ 1 →
      (natGatewayByID env k id).1 = .error ⟨"Could not find nat gateway"⟩) := by
  refine ⟨?_, ?_, ?_⟩
  · intro hd; simp [internetGatewayByVPCID, hd]
  · intro hd; simp [routingTableBySubnetID, hd]
  · intro gws hd hlen
    cases gws with
    | nil => simp [natGatewayByID, hd]
    | cons g gs =>
      cases gs with
      | nil => simp at hlen
      | cons g2 gs2 => simp [natGatewayByID, hd]

/-- C6 amended-claim witness: against the empty cloud, the
internet-gateway and route-table lookups come back empty without error
while the NAT-gateway lookup errors. -/
theorem c6_witness :
    internetGatewayByVPCID env0 "vpc-1" =
      (.ok none, [Call.describeInternetGateways "vpc-1"]) ∧
    routingTableBySubnetID env0 "subnet-a" =
      (.ok none, [Call.describeRouteTables "subnet-a"]) ∧
    (natGatewayByID env0 0 "nat-1").1 = .error ⟨"Could not find nat gateway"⟩ := by
  have h := c6_lookup_absence env0 "vpc-1" "subnet-a" "nat-1" 0
  exact ⟨h.1 rfl, h.2.1 rfl, h.2.2 [] rfl (by decide)⟩

lemma updateLoop_all_configured (env : Env) (vpc gwID : String) :
    ∀ subnets : List String,
      (∀ s ∈ subnets, ∃ rt rts, env.describeRouteTables s = .ok (rt :: rts) ∧
        routeTableIsConfigured rt gwID = true) →
      updateLoop env vpc gwID subnets =
        (.ok (), subnets.map Call.describeRouteTables) := by
  intro subnets
  induction subnets with
  | nil => intro _; rfl
  | cons s rest ih =>
    intro h
    obtain ⟨rt, rts, hd, hc⟩ := h s (List.mem_cons_self s rest)
    have hrest := ih fun x hx => h x (List.mem_cons_of_mem s hx)
    simp [updateLoop, createRouteTable, routingTableBySubnetID, hd, hc, hrest]

/-- C4: when every routed subnet's (first) route table already carries a
route with destination `0.0.0.0/0` targeting the request's NAT gateway
ID, `UpdateNat` succeeds, its trace is exactly one route-table describe
(the scan of the table's route list) per subnet, and it contains zero
route-creation calls — so a second Update run against a fully converged
topology creates nothing. -/
theorem c4_update_idempotent (env : Env) (ev : Event)
    (h : ∀ s ∈ ev.RoutedNetworkAWSIDs, ∃ rt rts,
      env.describeRouteTables s = .ok (rt :: rts) ∧
      routeTableIsConfigured rt ev.NatGatewayAWSID = true) :
    (UpdateNat env ev).1 = .ok () ∧
    (UpdateNat env ev).2.2 = ev.RoutedNetworkAWSIDs.map Call.describeRouteTables ∧
    ∀ rtb cidr gw, Call.createRoute rtb cidr gw ∉ (UpdateNat env ev).2.2 := by
  have hl := updateLoop_all_configured env ev.VPCID ev.NatGatewayAWSID
    ev.RoutedNetworkAWSIDs h
  refine ⟨?_, ?_, ?_⟩
  · simp [UpdateNat, hl]
  · simp [UpdateNat, hl]
  · intro rtb cidr gw hmem
    simp only [UpdateNat, hl] at hmem
    simp only [List.mem_map] at hmem
    obtain ⟨s, _, habs⟩ := hmem
    cases habs

/-- C4 witness: the converged two-subnet topology of `envC4` / `evC4`:
Update performs the two scans and no route creation. -/
theorem c4_witness :
    (∀ s ∈ evC4.RoutedNetworkAWSIDs, ∃ rt rts,
      envC4.describeRouteTables s = .ok (rt :: rts) ∧
      routeTableIsConfigured rt evC4.NatGatewayAWSID = true) ∧
    (UpdateNat envC4 evC4).1 = .ok () ∧
    (UpdateNat envC4 evC4).2.2 =
      [Call.describeRouteTables "subnet-a", Call.describeRouteTables "subnet-b"] := by
  have hyp : ∀ s ∈ evC4.RoutedNetworkAWSIDs, ∃ rt rts,
      envC4.describeRouteTables s = .ok (rt :: rts) ∧
      routeTableIsConfigured rt evC4.NatGatewayAWSID = true := by
    intro s _
    exact ⟨⟨"rtb-1", [⟨"0.0.0.0/0", "nat-1"⟩]⟩, [], rfl, rfl⟩
  have h := c4_update_idempotent envC4 evC4 hyp
  exact ⟨hyp, h.1, h.2.1⟩

/-- C3 (code bug): a describe error during the delete-wait poll does not
evaluate to "not yet deleted" — `isNatGatewayDeleted` discards the error
from `natGatewayByID`, leaving a nil gateway pointer, and dereferences
`*gw.State`: the process panics (the `none` outcome). This holds both
when the describe call itself fails and in the not-found case (empty
describe response, for which `natGatewayByID` manufactures an error), and
at the loop level the poll crashes instead of continuing. -/
theorem c3_poll_crashes_on_describe_error :
    isNatGatewayDeleted envDescribeErr 0 "nat-1" =
      (none, [Call.describeNatGateways "nat-1"]) ∧
    isNatGatewayDeleted env0 0 "nat-1" =
      (none, [Call.describeNatGateways "nat-1"]) ∧
    (deleteWaitLoop envDescribeErr "nat-1" 5 0).1 = DeleteOutcome.crashed ∧
    (DeleteNat env0 5 evDel).1 = DeleteOutcome.crashed := by
  exact ⟨rfl, rfl, rfl, rfl⟩

/-- C1 (code bug): the delete dispatch in `eventHandler` is commented out
in src/main.go (`//err = deleteNat(&n)`), so a valid `nat.delete.aws`
request makes zero cloud calls and is immediately answered with the
`.done` reply — the delete workflow is never executed — while the dead
`DeleteNat` function, had it been called, would have begun by issuing the
delete call for the request's NAT gateway ID. -/
theorem c1_handler_never_deletes :
    eventHandler env0 "nat.delete.aws" "payload" (some evDel) =
      ([Pub.event "nat.delete.aws.done" { evDel with action := "delete" }], []) ∧
    (DeleteNat env0 5 evDel).2.headD Call.allocateAddress =
      Call.deleteNatGateway "nat-1" := by
  exact ⟨rfl, rfl⟩

lemma createStep_ok_route (env : Env) (vpc gwID s : String)
    (h : (createStep env vpc gwID s).1 = .ok ()) :
    ∃ rt, (createRouteTable env vpc s).1 = .ok rt ∧
      Call.createRoute rt.routeTableId "0.0.0.0/0" gwID ∈
        (createStep env vpc gwID s).2 := by
  rcases hrt : createRouteTable env vpc s with ⟨r, t⟩
  cases r with
  | error e => simp [createStep, hrt] at h
  | ok rt =>
    refine ⟨rt, rfl, ?_⟩
    cases hcr : env.createRoute rt.routeTableId "0.0.0.0/0" gwID with
    | error e => simp [createStep, hrt, createNatGatewayRoutes, hcr]
    | ok u => simp [createStep, hrt, createNatGatewayRoutes, hcr]

lemma createLoop_all_ok (env : Env) (vpc gwID : String) :
    ∀ subnets : List String,
      (∀ s ∈ subnets, (createStep env vpc gwID s).1 = .ok ()) →
      createLoop env vpc gwID subnets =
        (.ok (), subnets.flatMap fun s => (createStep env vpc gwID s).2) := by
  intro subnets
  induction subnets with
  | nil => intro _; rfl
  | cons s rest ih =>
    intro h
    have hs := h s (List.mem_cons_self s rest)
    have hrest := ih fun x hx => h x (List.mem_cons_of_mem s hx)
    rcases hstep : createStep env vpc gwID s with ⟨r, t⟩
    rw [hstep] at hs
    simp only at hs
    subst hs
    simp [createLoop, hstep, hrest]

lemma createLoop_break (env : Env) (vpc gwID b : String) (e : Err) :
    ∀ pre post : List String,
      (∀ s ∈ pre, (createStep env vpc gwID s).1 = .ok ()) →
      (createStep env vpc gwID b).1 = .error e →
      createLoop env vpc gwID (pre ++ b :: post) =
        (.error e,
          (pre.flatMap fun s => (createStep env vpc gwID s).2) ++
            (createStep env vpc gwID b).2) := by
  intro pre
  induction pre with
  | nil =>
    intro post _ hb
    rcases hstep : createStep env vpc gwID b with ⟨r, t⟩
    rw [hstep] at hb
    simp only at hb
    subst hb
    simp [createLoop, hstep]
  | cons s rest ih =>
    intro post h hb
    have hs := h s (List.mem_cons_self s rest)
    have hrest := ih post (fun x hx => h x (List.mem_cons_of_mem s hx)) hb
    rcases hstep : createStep env vpc gwID s with ⟨r, t⟩
    rw [hstep] at hs
    simp only at hs
    subst hs
    simp [createLoop, hstep, hrest]

/-- C2: with the gateway phases succeeding, `CreateNat`'s remote calls
occur in the fixed order allocate-address, internet-gateway resolution,
create-NAT-gateway, wait-until-available, then the per-subnet steps in
the caller-supplied subnet order; if every per-subnet step succeeds the
trace is exactly that order, and if the step for subnet `b` fails after
the subnets of `pre` succeeded, the workflow stops with `b`'s error, the
trace consists of the gateway phase, the `pre` steps and `b`'s partial
step only (no call for any later subnet), and each earlier subnet's
installed default route remains in the trace (no call removes it). -/
theorem c2_create_order (env : Env) (ev : Event) (addr : Address)
    (igwId : String) (tg : List Call) (gw : NatGateway)
    (ha : env.allocateAddress = .ok addr)
    (hg : createInternetGateway env ev.VPCID = (.ok igwId, tg))
    (hn : env.createNatGateway addr.allocationId ev.PublicNetworkAWSID = .ok gw)
    (hw : env.waitNatGatewayAvailable gw.natGatewayId = .ok ()) :
    ((∀ s ∈ ev.RoutedNetworkAWSIDs,
        (createStep env ev.VPCID gw.natGatewayId s).1 = .ok ()) →
      CreateNat env ev = (.ok (), createdEvent ev addr igwId gw,
        Call.allocateAddress :: tg ++
          [Call.createNatGateway addr.allocationId ev.PublicNetworkAWSID,
           Call.waitNatGatewayAvailable gw.natGatewayId] ++
          ev.RoutedNetworkAWSIDs.flatMap
            fun s => (createStep env ev.VPCID gw.natGatewayId s).2)) ∧
    (∀ pre b post e, ev.RoutedNetworkAWSIDs = pre ++ b :: post →
      (∀ s ∈ pre, (createStep env ev.VPCID gw.natGatewayId s).1 = .ok ()) →
      (createStep env ev.VPCID gw.natGatewayId b).1 = .error e →
      CreateNat env ev = (.error e, createdEvent ev addr igwId gw,
        Call.allocateAddress :: tg ++
          [Call.createNatGateway addr.allocationId ev.PublicNetworkAWSID,
           Call.waitNatGatewayAvailable gw.natGatewayId] ++
          ((pre.flatMap fun s => (createStep env ev.VPCID gw.natGatewayId s).2) ++
            (createStep env ev.VPCID gw.natGatewayId b).2)) ∧
      ∀ s ∈ pre, ∃ rt, (createRouteTable env ev.VPCID s).1 = .ok rt ∧
        Call.createRoute rt.routeTableId "0.0.0.0/0" gw.natGatewayId ∈
          (CreateNat env ev).2.2) := by
  have hmain : ∀ r tl,
      createLoop env ev.VPCID gw.natGatewayId ev.RoutedNetworkAWSIDs = (r, tl) →
      CreateNat env ev = (r, createdEvent ev addr igwId gw,
        Call.allocateAddress :: tg ++
          [Call.createNatGateway addr.allocationId ev.PublicNetworkAWSID,
           Call.waitNatGatewayAvailable gw.natGatewayId] ++ tl) := by
    intro r tl hloop
    simp only [CreateNat, ha, hg, hn, hw, hloop, createdEvent]
  constructor
  · intro hall
    exact hmain _ _ (createLoop_all_ok env ev.VPCID gw.natGatewayId
      ev.RoutedNetworkAWSIDs hall)
  · intro pre b post e hsplit hpre hb
    have hloop : createLoop env ev.VPCID gw.natGatewayId ev.RoutedNetworkAWSIDs =
        (.error e,
          (pre.flatMap fun s => (createStep env ev.VPCID gw.natGatewayId s).2) ++
            (createStep env ev.VPCID gw.natGatewayId b).2) := by
      rw [hsplit]
      exact createLoop_break env ev.VPCID gw.natGatewayId b e pre post hpre hb
    refine ⟨hmain _ _ hloop, ?_⟩
    intro s hs
    obtain ⟨rt, hrt, hmem⟩ :=
      createStep_ok_route env ev.VPCID gw.natGatewayId s (hpre s hs)
    refine ⟨rt, hrt, ?_⟩
    rw [hmain _ _ hloop]
    have hin : Call.createRoute rt.routeTableId "0.0.0.0/0" gw.natGatewayId ∈
        pre.flatMap fun x => (createStep env ev.VPCID gw.natGatewayId x).2 :=
      List.mem_flatMap.mpr ⟨s, hs, hmem⟩
    simp [hin]

/-- C2 witness: the three-subnet scenario of the spec — subnets
`[subnet-a, subnet-b, subnet-c]`, with route installation failing on
subnet-b's table: the workflow stops with that error, the trace holds the
gateway phase, subnet-a's resolved table and installed route, and
subnet-b's partial step, with no call for subnet-c; subnet-a's route call
is in the trace. -/
theorem c2_witness :
    (CreateNat envC2 evC2).1 = .error ⟨"route failed"⟩ ∧
    (CreateNat envC2 evC2).2.2 =
      [Call.allocateAddress,
       Call.describeInternetGateways "vpc-1",
       Call.createInternetGateway,
       Call.attachInternetGateway "igw-new" "vpc-1",
       Call.createNatGateway "alloc-1" "subnet-pub",
       Call.waitNatGatewayAvailable "nat-1",
       Call.describeRouteTables "subnet-a",
       Call.createRoute "rtb-subnet-a" "0.0.0.0/0" "nat-1",
       Call.describeRouteTables "subnet-b",
       Call.createRoute "rtb-subnet-b" "0.0.0.0/0" "nat-1"] ∧
    Call.createRoute "rtb-subnet-a" "0.0.0.0/0" "nat-1" ∈ (CreateNat envC2 evC2).2.2 := by
  have h := c2_create_order envC2 evC2 ⟨"alloc-1", "52.0.0.1"⟩ "igw-new"
    [Call.describeInternetGateways "vpc-1", Call.createInternetGateway,
     Call.attachInternetGateway "igw-new" "vpc-1"] ⟨"nat-1", "pending"⟩
    rfl rfl rfl rfl
  have hpre : ∀ s ∈ ["subnet-a"],
      (createStep envC2 "vpc-1" "nat-1" s).1 = Except.ok () := by
    intro s hs
    rcases List.mem_singleton.mp hs with rfl
    rfl
  have hfail := h.2 ["subnet-a"] "subnet-b" ["subnet-c"] ⟨"route failed"⟩
    rfl hpre rfl
  have hroute := hfail.2 "subnet-a" (List.mem_singleton.mpr rfl)
  obtain ⟨rt, hrt, hmem⟩ := hroute
  have hok : Except.ok rt =
      (Except.ok (⟨"rtb-subnet-a", []⟩ : RouteTable) : Except Err RouteTable) :=
    hrt.symm.trans rfl
  have hrteq : rt = ⟨"rtb-subnet-a", []⟩ := Except.ok.inj hok
  subst hrteq
  exact ⟨by rw [hfail.1], by rw [hfail.1]; rfl, hmem⟩
